import Mathlib

/-!
Verification of the Groupdeedo real-time group-chat core.

The definitions below are a shallow embedding of the JavaScript source:

* `src/server.js` — membership registry, channel normalization, fan-out
  router, snapshot loader, socket handlers, vote endpoint, admin delete
  endpoint;
* `src/models/database.js` — vote store operations (`addVote`,
  `getPostVoteCounts`, `checkPostForAutoDelete`, `deletePostById`,
  `getRecentPosts`), modelled over explicit lists standing for the SQL
  tables (posts in ascending `created_at` order, votes in insertion
  order);
* `src/utils/location.js` and the geofenced server variant
  (`src/unnamed/part_002`) — Haversine distance over the reals and the
  geofenced delivery gate.

JavaScript `undefined`/`null` string inputs are modelled as `Option`;
`String.prototype.trim` is modelled by `jsTrim` on the character list.
Machine floats are idealized as real numbers.
-/

namespace Groupdeedo

/-- Model of JavaScript `String.prototype.trim`: drop leading and trailing
whitespace characters. -/
def jsTrim (s : String) : String :=
  ⟨(((s.data.dropWhile Char.isWhitespace).reverse.dropWhile Char.isWhitespace).reverse)⟩

/-- Function `normalizeChannel` from `src/server.js` lines 190–195: `null`/`undefined`
become `""`; any string is trimmed. -/
def normalizeChannel (channel : Option String) : String :=
  match channel with
  | none => ""
  | some c => jsTrim c

/-- A live participant record, as stored in the `activeUsers` map of
`src/server.js` (channel-only variant). -/
structure Participant where
  id : String
  sessionId : String
  displayName : String
  channel : String
  deriving Repr, DecidableEq

/-- A persisted post, as built in the `sendMessage` handler of
`src/server.js` and stored in the `posts` table. -/
structure Post where
  id : String
  sessionId : String
  displayName : String
  message : String
  image : Option String
  latitude : Int
  longitude : Int
  channel : String
  timestamp : String
  deriving Repr, DecidableEq

/-- The matching rule of the channel-only variant: the comparison
`normalizeChannel(post.channel) === normalizeChannel(user.channel)`
used in `sendFilteredPosts` (line 209) and `broadcastToRelevantUsers`
(line 226) of `src/server.js`. -/
def matchesRule (user : Participant) (post : Post) : Bool :=
  normalizeChannel (some post.channel) == normalizeChannel (some user.channel)

/-- Function `broadcastToRelevantUsers` from `src/server.js` lines 220–233: iterate
the registry (modelled as a list in `Map` insertion order) and emit
`newPost` to each socket whose normalized channel equals the post's
normalized channel.  Returns the socket ids receiving the event, in
iteration order. -/
def broadcastToRelevantUsers (registry : List Participant) (post : Post) : List String :=
  (registry.filter (fun u => matchesRule u post)).map (fun u => u.id)

/-- A vote row in the `votes` table of `src/models/database.js`
(`UNIQUE(post_id, session_id)` is enforced by the store; the model keeps
rows in insertion order). -/
inductive VoteType where
  | up
  | down
  deriving Repr, DecidableEq

structure Vote where
  postId : String
  sessionId : String
  voteType : VoteType
  deriving Repr, DecidableEq

/-- Result tag of `addVote` in `src/models/database.js`. -/
inductive VoteAction where
  | added
  | removed
  | updated
  deriving Repr, DecidableEq

/-- The `SELECT vote_type FROM votes WHERE post_id = ? AND session_id = ?`
lookup (first matching row, as `db.get` returns). -/
def findVote (votes : List Vote) (postId sessionId : String) : Option Vote :=
  votes.find? (fun v => v.postId == postId && v.sessionId == sessionId)

/-- Function `addVote` from `src/models/database.js` lines 540–606: if the voter
already voted the same type, delete the row (`removed`); a different
type updates the row in place (`updated`); otherwise insert (`added`). -/
def addVote (votes : List Vote) (postId sessionId : String) (voteType : VoteType) :
    List Vote × VoteAction :=
  match findVote votes postId sessionId with
  | some v =>
    if v.voteType = voteType then
      (votes.filter (fun w => !(w.postId == postId && w.sessionId == sessionId)), .removed)
    else
      (votes.map (fun w =>
        if w.postId == postId && w.sessionId == sessionId then
          { w with voteType := voteType } else w), .updated)
  | none => (votes ++ [{ postId := postId, sessionId := sessionId, voteType := voteType }], .added)

/-- Function `getPostVoteCounts` from `src/models/database.js` lines 608–632:
`(up, down)` counts of vote rows for the post. -/
def getPostVoteCounts (votes : List Vote) (postId : String) : Nat × Nat :=
  ((votes.filter (fun v => v.postId == postId && v.voteType == .up)).length,
   (votes.filter (fun v => v.postId == postId && v.voteType == .down)).length)

/-- The `COUNT(DISTINCT session_id)` aggregate over down-vote rows for the post, as in
`checkPostForAutoDelete` (`src/models/database.js` lines 649–672). -/
def downvoterCount (votes : List Vote) (postId : String) : Nat :=
  (((votes.filter (fun v => v.postId == postId && v.voteType == .down)).map
      (fun v => v.sessionId)).dedup).length

/-- Function `checkPostForAutoDelete`: `(shouldDelete, downvoteCount)` with the
fixed threshold 3. -/
def checkPostForAutoDelete (votes : List Vote) (postId : String) : Bool × Nat :=
  (decide (3 ≤ downvoterCount votes postId), downvoterCount votes postId)

/-- The persistent store: the `posts` table (ascending `created_at`
order) and the `votes` table. -/
structure DB where
  posts : List Post
  votes : List Vote
  deriving Repr, DecidableEq

/-- Function `deletePostById` from `src/models/database.js` lines 446–460:
`DELETE FROM posts WHERE id = ?`; reports `deleted = changes > 0`.
(Foreign-key cascades are off by default in the sqlite3 driver, so vote
rows are untouched.)  Returns the new store, the `deleted` flag and the
number of affected rows. -/
def deletePostById (db : DB) (postId : String) : DB × Bool × Nat :=
  let changes := (db.posts.filter (fun p => p.id == postId)).length
  ({ db with posts := db.posts.filter (fun p => !(p.id == postId)) }, decide (0 < changes), changes)

/-- Function `getRecentPosts` from `src/models/database.js` lines 159–190: the
`limit` most recent posts fetched in descending `created_at` order, then
reversed to chronological order. -/
def getRecentPosts (store : List Post) (limit : Nat) : List Post :=
  ((store.reverse).take limit).reverse

/-- An outbound event, as emitted over socket.io in `src/server.js`. -/
inductive SEvent where
  | posts (ps : List Post)
  | newPost (p : Post)
  | voteUpdate (postId : String) (up down : Nat) (action : VoteAction) (voteType : VoteType)
  | messageDeleted (messageId : String) (reason : Option String) (downvoteCount : Option Nat)
  | errorMsg (msg : String)
  | adminNotify
  deriving Repr, DecidableEq

/-- Delivery target of an emit: `io.emit` goes to all connections,
`socket.emit` / `io.to(socketId).emit` to one. -/
inductive Target where
  | all
  | one (socketId : String)
  deriving Repr, DecidableEq

structure Broadcast where
  target : Target
  event : SEvent
  deriving Repr, DecidableEq

def isMessageDeleted : SEvent → Bool
  | .messageDeleted _ _ _ => true
  | _ => false

def isVoteUpdate : SEvent → Bool
  | .voteUpdate _ _ _ _ _ => true
  | _ => false

/-- The filtered history computed in `sendFilteredPosts`
(`src/server.js` lines 198–217): last 100 posts, channel-matched. -/
def filteredPostsFor (user : Participant) (store : List Post) : List Post :=
  (getRecentPosts store 100).filter (fun p => matchesRule user p)

/-- Function `sendFilteredPosts` from `src/server.js` lines 198–217: look the user
up; silently return if gone; otherwise emit a single `posts` event with
the filtered history to that socket. -/
def sendFilteredPosts (registry : List Participant) (socketId : String) (store : List Post) :
    List Broadcast :=
  match registry.find? (fun u => u.id == socketId) with
  | none => []
  | some user => [{ target := .one socketId, event := .posts (filteredPostsFor user store) }]

/-- Model of `activeUsers.set(id, user)`: replace the entry with this id, or append
a new one. -/
def mapSet (registry : List Participant) (p : Participant) : List Participant :=
  if registry.any (fun q => q.id == p.id) then
    registry.map (fun q => if q.id == p.id then p else q)
  else registry ++ [p]

/-- Connection registration from `src/server.js` lines 89–99: a fresh
Participant with `displayName = "Anonymous"` and `channel = ""`. -/
def registerHandler (registry : List Participant) (socketId sessionId : String) :
    List Participant :=
  mapSet registry
    { id := socketId, sessionId := sessionId, displayName := "Anonymous", channel := "" }

/-- Partial settings supplied by the client; `none` models an absent
(`undefined`) field. -/
structure Settings where
  displayName : Option String
  channel : Option String
  deriving Repr, DecidableEq

/-- The `updateSettings` socket handler (`src/server.js` lines 102–124):
no-op when the socket is unregistered; otherwise
`displayName = settings.displayName || user.displayName` (the empty
string is falsy and keeps the old name),
`channel = settings.channel !== undefined ? normalizeChannel(settings.channel) : user.channel`,
and a snapshot refresh is emitted only when the channel changed. -/
def updateSettingsHandler (registry : List Participant) (socketId : String)
    (settings : Settings) (store : List Post) : List Participant × List Broadcast :=
  match registry.find? (fun u => u.id == socketId) with
  | none => (registry, [])
  | some user =>
    let newName := match settings.displayName with
      | some d => if d = "" then user.displayName else d
      | none => user.displayName
    let newChannel := match settings.channel with
      | some c => normalizeChannel (some c)
      | none => user.channel
    let user' := { user with displayName := newName, channel := newChannel }
    let registry' := mapSet registry user'
    if user.channel = newChannel then (registry', [])
    else (registry', sendFilteredPosts registry' socketId store)

/-- Client payload of a `sendMessage` event. -/
structure MessageData where
  message : String
  image : Option String
  deriving Repr, DecidableEq

/-- The `sendMessage` socket handler (`src/server.js` lines 127–168):
an unregistered socket gets an `error 'Not connected'` event; otherwise
the post (with fresh id and timestamp, latitude/longitude `0`, the
author's normalized channel) is persisted and fanned out through
`broadcastToRelevantUsers`, followed by an admin-panel notification. -/
def sendMessageHandler (registry : List Participant) (socketId : String) (md : MessageData)
    (db : DB) (freshId timestamp : String) : DB × List Broadcast :=
  match registry.find? (fun u => u.id == socketId) with
  | none => (db, [{ target := .one socketId, event := .errorMsg "Not connected" }])
  | some user =>
    let post : Post :=
      { id := freshId, sessionId := user.sessionId, displayName := user.displayName,
        message := md.message, image := md.image, latitude := 0, longitude := 0,
        channel := normalizeChannel (some user.channel), timestamp := timestamp }
    ({ db with posts := db.posts ++ [post] },
     (broadcastToRelevantUsers registry post).map
        (fun sid => { target := .one sid, event := .newPost post })
       ++ [{ target := .all, event := .adminNotify }])

/-- The admin delete endpoint (`src/server.js` lines 354–377): on a
successful delete, `io.emit('messageDeleted', { messageId })` — no
reason field — plus an admin-panel notification; a miss is a 404 with
no broadcast. -/
def adminDeleteHandler (db : DB) (messageId : String) : DB × List Broadcast × Bool :=
  let del := deletePostById db messageId
  if del.2.1 then
    (del.1,
     [{ target := .all, event := .messageDeleted messageId none none },
      { target := .all, event := .adminNotify }],
     true)
  else (del.1, [], false)

/-- The vote endpoint (`src/server.js` lines 403–491): record the vote,
recount; on a downvote whose recomputed distinct-voter count reaches 3,
delete the post and, if a row was deleted, broadcast `messageDeleted`
with reason `auto-moderation` and the count, returning before the
`voteUpdate` emit; otherwise broadcast a single `voteUpdate` to all. -/
def voteHandler (db : DB) (postId sessionId : String) (voteType : VoteType) :
    DB × List Broadcast :=
  let votes' := (addVote db.votes postId sessionId voteType).1
  let action := (addVote db.votes postId sessionId voteType).2
  let counts := getPostVoteCounts votes' postId
  let db' : DB := { posts := db.posts, votes := votes' }
  let normal : DB × List Broadcast :=
    (db',
     [{ target := .all, event := .voteUpdate postId counts.1 counts.2 action voteType },
      { target := .all, event := .adminNotify }])
  if voteType = .down then
    let chk := checkPostForAutoDelete votes' postId
    if chk.1 then
      let del := deletePostById db' postId
      if del.2.1 then
        (del.1,
         [{ target := .all, event := .messageDeleted postId (some "auto-moderation") (some chk.2) },
          { target := .all, event := .adminNotify }])
      else normal
    else normal
  else normal

noncomputable section GeoVariant

open Real

/-- Function `toRadians` from `src/utils/location.js`. -/
def toRadians (degrees : ℝ) : ℝ := degrees * (Real.pi / 180)

/-- Real-valued model of JavaScript `Math.atan2`. -/
def atan2 (y x : ℝ) : ℝ :=
  if 0 < x then Real.arctan (y / x)
  else if x < 0 then
    (if 0 ≤ y then Real.arctan (y / x) + Real.pi else Real.arctan (y / x) - Real.pi)
  else
    (if 0 < y then Real.pi / 2 else if y < 0 then -(Real.pi / 2) else 0)

/-- The intermediate value `a` of `calculateDistance` in
`src/utils/location.js` lines 13–26. -/
def haversineA (lat1 lon1 lat2 lon2 : ℝ) : ℝ :=
  let dLat := toRadians (lat2 - lat1)
  let dLon := toRadians (lon2 - lon1)
  Real.sin (dLat / 2) * Real.sin (dLat / 2) +
    Real.cos (toRadians lat1) * Real.cos (toRadians lat2) *
      (Real.sin (dLon / 2) * Real.sin (dLon / 2))

/-- Function `calculateDistance` from `src/utils/location.js` lines 13–26:
Haversine distance in miles with earth radius 3959, computed through
`2 * atan2(sqrt a, sqrt (1 - a))`. -/
def calculateDistance (lat1 lon1 lat2 lon2 : ℝ) : ℝ :=
  let a := haversineA lat1 lon1 lat2 lon2
  let c := 2 * atan2 (Real.sqrt a) (Real.sqrt (1 - a))
  3959 * c

/-- Function `isWithinRadius` from `src/utils/location.js` lines 46–49. -/
def isWithinRadius (centerLat centerLon pointLat pointLon radiusMiles : ℝ) : Prop :=
  calculateDistance centerLat centerLon pointLat pointLon ≤ radiusMiles

/-- Modelled from the spec: the reference great-circle formula
`2 * R * asin(sqrt(sin^2(dlat/2) + cos(lat1) * cos(lat2) * sin^2(dlon/2)))`
the code's distance must agree with (spec section 4.2). -/
def referenceDistance (lat1 lon1 lat2 lon2 : ℝ) : ℝ :=
  2 * 3959 * Real.arcsin (Real.sqrt (haversineA lat1 lon1 lat2 lon2))

/-- A participant of the geofenced variant (`src/unnamed/part_002`):
`latitude`/`longitude` start as `null` (`none`). -/
structure GeoUser where
  id : String
  latitude : Option ℝ
  longitude : Option ℝ
  radius : ℝ
  channel : String

/-- A post of the geofenced variant. -/
structure GeoPost where
  id : String
  latitude : ℝ
  longitude : ℝ
  channel : String

/-- The per-user delivery decision of `broadcastToRelevantUsers` in the
geofenced variant (`src/unnamed/part_002` lines 176–193): the
`if (!user.latitude || !user.longitude) continue;` guard skips users
whose latitude or longitude is `null` or `0` (JavaScript falsiness),
then requires raw channel equality and Haversine distance at most
`user.radius`. -/
def geoDelivers (u : GeoUser) (p : GeoPost) : Prop :=
  match u.latitude, u.longitude with
  | some lat, some lon =>
      lat ≠ 0 ∧ lon ≠ 0 ∧ p.channel = u.channel ∧
        calculateDistance lat lon p.latitude p.longitude ≤ u.radius
  | _, _ => False

/-- Modelled from the spec: the geofenced matching rule of section 4.2 —
channel equality and within-radius distance, with a participant lacking
a (non-null) location never matching. -/
def matchesGeoSpec (u : GeoUser) (p : GeoPost) : Prop :=
  match u.latitude, u.longitude with
  | some lat, some lon =>
      p.channel = u.channel ∧ calculateDistance lat lon p.latitude p.longitude ≤ u.radius
  | _, _ => False

end GeoVariant

/-! ## Theorems -/

/-- C3: the matching rule is a pure function invariant under channel
normalization: a participant channel of `" general "` gives the same
result as `"general"` against every post, and the channel values `""`,
`" "` and `undefined` all normalize identically. -/
theorem matchesRule_normalization_invariant :
    (∀ (i s d : String) (post : Post),
        matchesRule { id := i, sessionId := s, displayName := d, channel := " general " } post =
          matchesRule { id := i, sessionId := s, displayName := d, channel := "general" } post) ∧
    normalizeChannel (some "") = normalizeChannel (some " ") ∧
    normalizeChannel (some " ") = normalizeChannel none := by
  refine ⟨?_, by decide, by decide⟩
  intro i s d post
  have h : normalizeChannel (some " general ") = normalizeChannel (some "general") := by decide
  show (normalizeChannel (some post.channel) == normalizeChannel (some " general ")) =
    (normalizeChannel (some post.channel) == normalizeChannel (some "general"))
  rw [h]

/-- C2 counterexample: trimming preserves case, so a participant whose
channel is `"Alpha "` (normalized `"Alpha"`) does not receive a post in
channel `"alpha"`: with the three participants of the claim, the post is
delivered to the first participant only, not the first two. -/
theorem broadcast_alpha_counterexample :
    broadcastToRelevantUsers
      [{ id := "s1", sessionId := "a1", displayName := "n1", channel := "alpha" },
       { id := "s2", sessionId := "a2", displayName := "n2", channel := "Alpha " },
       { id := "s3", sessionId := "a3", displayName := "n3", channel := "beta" }]
      { id := "p1", sessionId := "a1", displayName := "n1", message := "m", image := none,
        latitude := 0, longitude := 0, channel := "alpha", timestamp := "t" } = ["s1"] := by
  decide

/-- C2 (amended): broadcasting a post pushes `newPost` to exactly those
registered participants whose normalized channel equals the post's
normalized channel, each exactly once (given distinct socket ids); a
post in channel `"alpha"` among participants in `"alpha"`, `"alpha "`
(which trims to `"alpha"`) and `"beta"` is delivered to exactly the
first two. -/
theorem broadcastNewPost_exactly_matching :
    (∀ (registry : List Participant) (post : Post) (sid : String),
        sid ∈ broadcastToRelevantUsers registry post ↔
          ∃ u ∈ registry, u.id = sid ∧ matchesRule u post = true) ∧
    (∀ (registry : List Participant) (post : Post),
        (registry.map Participant.id).Nodup →
          (broadcastToRelevantUsers registry post).Nodup) ∧
    broadcastToRelevantUsers
      [{ id := "s1", sessionId := "a1", displayName := "n1", channel := "alpha" },
       { id := "s2", sessionId := "a2", displayName := "n2", channel := "alpha " },
       { id := "s3", sessionId := "a3", displayName := "n3", channel := "beta" }]
      { id := "p1", sessionId := "a1", displayName := "n1", message := "m", image := none,
        latitude := 0, longitude := 0, channel := "alpha", timestamp := "t" } = ["s1", "s2"] := by
  refine ⟨?_, ?_, by decide⟩
  · intro registry post sid
    simp only [broadcastToRelevantUsers]
    constructor
    · intro h
      rcases List.mem_map.1 h with ⟨u, hu, rfl⟩
      rcases List.mem_filter.1 hu with ⟨hmem, hm⟩
      exact ⟨u, hmem, rfl, hm⟩
    · rintro ⟨u, hmem, rfl, hm⟩
      exact List.mem_map.2 ⟨u, List.mem_filter.2 ⟨hmem, hm⟩, rfl⟩
  · intro registry post h
    exact h.sublist ((List.filter_sublist _).map Participant.id)

/-- Witness for C2: a concrete registry with distinct socket ids yields a
duplicate-free delivery list. -/
theorem broadcastNewPost_exactly_matching_witness :
    (([{ id := "s1", sessionId := "a1", displayName := "n1", channel := "alpha" },
       { id := "s2", sessionId := "a2", displayName := "n2", channel := "alpha" }] :
        List Participant).map Participant.id).Nodup ∧
    (broadcastToRelevantUsers
      [{ id := "s1", sessionId := "a1", displayName := "n1", channel := "alpha" },
       { id := "s2", sessionId := "a2", displayName := "n2", channel := "alpha" }]
      { id := "p1", sessionId := "a1", displayName := "n1", message := "m", image := none,
        latitude := 0, longitude := 0, channel := "alpha", timestamp := "t" }).Nodup :=
  ⟨by decide, broadcastNewPost_exactly_matching.2.1 _ _ (by decide)⟩

/-- C4: casting a vote with no existing vote inserts it (`added`);
casting the same type as the existing vote removes it (`removed`) and
restores the vote store — hence the post's vote counts — to the
pre-vote state; casting the opposite type overwrites the existing vote
(`updated`): the store keeps every row that is not the voter's
unchanged, the voter's stored vote afterwards carries the new type,
and for a fresh voter casting `t` and then the opposite `t'` leaves
the very store (and counts) that casting `t'` directly would have
produced. -/
theorem addVote_toggle_semantics :
    (∀ (votes : List Vote) (p s : String) (t : VoteType),
        findVote votes p s = none →
          (addVote votes p s t).2 = VoteAction.added ∧
          (addVote (addVote votes p s t).1 p s t).2 = VoteAction.removed ∧
          (addVote (addVote votes p s t).1 p s t).1 = votes ∧
          getPostVoteCounts (addVote (addVote votes p s t).1 p s t).1 p =
            getPostVoteCounts votes p) ∧
    (∀ (votes : List Vote) (p s : String) (t : VoteType) (v : Vote),
        findVote votes p s = some v → v.voteType = t →
          (addVote votes p s t).2 = VoteAction.removed) ∧
    (∀ (votes : List Vote) (p s : String) (t : VoteType) (v : Vote),
        findVote votes p s = some v → v.voteType ≠ t →
          (addVote votes p s t).2 = VoteAction.updated ∧
          (addVote votes p s t).1 =
            votes.map (fun w =>
              if w.postId == p && w.sessionId == s then { w with voteType := t } else w) ∧
          findVote (addVote votes p s t).1 p s = some { v with voteType := t }) ∧
    (∀ (votes : List Vote) (p s : String) (t t' : VoteType),
        findVote votes p s = none → t' ≠ t →
          (addVote (addVote votes p s t).1 p s t').2 = VoteAction.updated ∧
          (addVote (addVote votes p s t).1 p s t').1 = (addVote votes p s t').1 ∧
          getPostVoteCounts (addVote (addVote votes p s t).1 p s t').1 p =
            getPostVoteCounts (addVote votes p s t').1 p) := by
  refine ⟨?_, ?_, ?_, ?_⟩
  · intro votes p s t h
    have h' : List.find? (fun v => v.postId == p && v.sessionId == s) votes = none := h
    have h1 : addVote votes p s t =
        (votes ++ [{ postId := p, sessionId := s, voteType := t }], VoteAction.added) := by
      simp [addVote, findVote, h']
    have hfind : findVote (votes ++ [{ postId := p, sessionId := s, voteType := t }]) p s =
        some { postId := p, sessionId := s, voteType := t } := by
      simp only [findVote, List.find?_append, h', Option.none_or]
      simp [List.find?]
    have h2 : addVote (addVote votes p s t).1 p s t = (votes, VoteAction.removed) := by
      rw [h1]
      simp [addVote, hfind, List.filter_append]
      intro a ha
      have hna := List.find?_eq_none.1 h' a ha
      simp at hna
      tauto
    exact ⟨by rw [h1], by rw [h2], by rw [h2], by rw [h2]⟩
  · intro votes p s t v hfind hv
    simp [addVote, hfind, hv]
  · intro votes p s t v hfind hv
    have hf : List.find? (fun v => v.postId == p && v.sessionId == s) votes = some v := hfind
    have hvkey := List.find?_some hf
    refine ⟨by simp [addVote, hfind, hv], by simp [addVote, hfind, hv], ?_⟩
    simp only [addVote, hfind, if_neg hv]
    simp only [findVote]
    rw [List.find?_map]
    have hcomp : ((fun w : Vote => w.postId == p && w.sessionId == s) ∘
        (fun w : Vote =>
          if w.postId == p && w.sessionId == s then { w with voteType := t } else w)) =
        (fun w : Vote => w.postId == p && w.sessionId == s) := by
      funext w
      by_cases hk : (w.postId == p && w.sessionId == s) = true
      · simp only [Function.comp_apply, if_pos hk]
      · simp only [Function.comp_apply, if_neg hk]
    rw [hcomp, hf]
    have hvkey' : (v.postId == p && v.sessionId == s) = true := hvkey
    have hfv : (fun w : Vote =>
        if w.postId == p && w.sessionId == s then { w with voteType := t } else w) v =
        { v with voteType := t } := by
      show (if v.postId == p && v.sessionId == s then { v with voteType := t } else v) =
        { v with voteType := t }
      rw [if_pos hvkey']
    exact congrArg some hfv
  · intro votes p s t t' hnone hne
    have hn : List.find? (fun v => v.postId == p && v.sessionId == s) votes = none := hnone
    have h1 : addVote votes p s t =
        (votes ++ [{ postId := p, sessionId := s, voteType := t }], VoteAction.added) := by
      simp [addVote, findVote, hn]
    have hone : addVote votes p s t' =
        (votes ++ [{ postId := p, sessionId := s, voteType := t' }], VoteAction.added) := by
      simp [addVote, findVote, hn]
    have hfind : findVote (votes ++ [{ postId := p, sessionId := s, voteType := t }]) p s =
        some { postId := p, sessionId := s, voteType := t } := by
      simp only [findVote, List.find?_append, hn, Option.none_or]
      simp [List.find?]
    have hne' : ¬ (({ postId := p, sessionId := s, voteType := t } : Vote).voteType = t') := by
      show ¬ (t = t')
      exact fun h => hne h.symm
    have hmap : votes.map (fun w : Vote =>
        if w.postId == p && w.sessionId == s then { w with voteType := t' } else w) = votes := by
      have hid : ∀ w ∈ votes,
          (fun w : Vote =>
            if w.postId == p && w.sessionId == s then { w with voteType := t' } else w) w =
            id w := by
        intro w hw
        have hcond := List.find?_eq_none.1 hn w hw
        show (if w.postId == p && w.sessionId == s then { w with voteType := t' } else w) =
          id w
        rw [if_neg hcond]
        rfl
      rw [List.map_congr_left hid, List.map_id]
    have hpair : addVote (votes ++ [{ postId := p, sessionId := s, voteType := t }]) p s t' =
        ((votes ++ [({ postId := p, sessionId := s, voteType := t } : Vote)]).map
          (fun w : Vote =>
            if w.postId == p && w.sessionId == s then { w with voteType := t' } else w),
         VoteAction.updated) := by
      simp [addVote, hfind, hne']
    have hact : (addVote (addVote votes p s t).1 p s t').2 = VoteAction.updated := by
      rw [h1, hpair]
    have hstore : (addVote (addVote votes p s t).1 p s t').1 = (addVote votes p s t').1 := by
      rw [h1, hone, hpair]
      simp only [List.map_append, hmap]
      simp
    exact ⟨hact, hstore, by rw [hstore]⟩

/-- Witness for C4: the four cases exercised on concrete stores. -/
theorem addVote_toggle_semantics_witness :
    (findVote [] "P" "S" = none ∧
      ((addVote [] "P" "S" VoteType.up).2 = VoteAction.added ∧
       (addVote (addVote [] "P" "S" VoteType.up).1 "P" "S" VoteType.up).2 =
         VoteAction.removed ∧
       (addVote (addVote [] "P" "S" VoteType.up).1 "P" "S" VoteType.up).1 = [] ∧
       getPostVoteCounts (addVote (addVote [] "P" "S" VoteType.up).1 "P" "S" VoteType.up).1 "P" =
         getPostVoteCounts [] "P")) ∧
    (findVote [{ postId := "P", sessionId := "S", voteType := VoteType.up }] "P" "S" =
        some { postId := "P", sessionId := "S", voteType := VoteType.up } ∧
      (addVote [{ postId := "P", sessionId := "S", voteType := VoteType.up }] "P" "S"
          VoteType.up).2 = VoteAction.removed) ∧
    (findVote [{ postId := "P", sessionId := "S", voteType := VoteType.up }] "P" "S" =
        some { postId := "P", sessionId := "S", voteType := VoteType.up } ∧
      ((addVote [{ postId := "P", sessionId := "S", voteType := VoteType.up }] "P" "S"
          VoteType.down).2 = VoteAction.updated ∧
       (addVote [{ postId := "P", sessionId := "S", voteType := VoteType.up }] "P" "S"
          VoteType.down).1 =
         [{ postId := "P", sessionId := "S", voteType := VoteType.up }].map
           (fun w => if w.postId == "P" && w.sessionId == "S" then
             { w with voteType := VoteType.down } else w) ∧
       findVote (addVote [{ postId := "P", sessionId := "S", voteType := VoteType.up }] "P" "S"
           VoteType.down).1 "P" "S" =
         some { postId := "P", sessionId := "S", voteType := VoteType.down })) ∧
    (findVote [] "P" "S" = none ∧
      ((addVote (addVote [] "P" "S" VoteType.up).1 "P" "S" VoteType.down).2 =
         VoteAction.updated ∧
       (addVote (addVote [] "P" "S" VoteType.up).1 "P" "S" VoteType.down).1 =
         (addVote [] "P" "S" VoteType.down).1 ∧
       getPostVoteCounts
           (addVote (addVote [] "P" "S" VoteType.up).1 "P" "S" VoteType.down).1 "P" =
         getPostVoteCounts (addVote [] "P" "S" VoteType.down).1 "P")) :=
  ⟨⟨by decide, addVote_toggle_semantics.1 [] "P" "S" VoteType.up (by decide)⟩,
   ⟨by decide, addVote_toggle_semantics.2.1
      [{ postId := "P", sessionId := "S", voteType := VoteType.up }] "P" "S" VoteType.up
      { postId := "P", sessionId := "S", voteType := VoteType.up } (by decide) (by decide)⟩,
   ⟨by decide, addVote_toggle_semantics.2.2.1
      [{ postId := "P", sessionId := "S", voteType := VoteType.up }] "P" "S" VoteType.down
      { postId := "P", sessionId := "S", voteType := VoteType.up } (by decide) (by decide)⟩,
   ⟨by decide, addVote_toggle_semantics.2.2.2 [] "P" "S" VoteType.up VoteType.down
      (by decide) (by decide)⟩⟩

/-- C5: the snapshot takes the 100 most recent posts (the chronological
suffix of the store), keeps exactly the posts whose normalized channel
equals the participant's, preserves chronological order (the result is
a sublist of the store), and is pushed as a single `posts` event; for a
participant in channel `""` every post in it normalizes to `""`. -/
theorem snapshot_filtered_ordered :
    (∀ (store : List Post) (limit : Nat),
        getRecentPosts store limit = store.drop (store.length - limit)) ∧
    (∀ (registry : List Participant) (sid : String) (store : List Post) (user : Participant),
        registry.find? (fun u => u.id == sid) = some user →
          sendFilteredPosts registry sid store =
            [{ target := Target.one sid,
               event := SEvent.posts
                 ((getRecentPosts store 100).filter (fun p => matchesRule user p)) }] ∧
          (filteredPostsFor user store).Sublist store ∧
          (∀ p ∈ filteredPostsFor user store,
              normalizeChannel (some p.channel) = normalizeChannel (some user.channel)) ∧
          (normalizeChannel (some user.channel) = "" →
              ∀ p ∈ filteredPostsFor user store, normalizeChannel (some p.channel) = "")) := by
  have hdrop : ∀ (store : List Post) (limit : Nat),
      getRecentPosts store limit = store.drop (store.length - limit) := by
    intro store limit
    simp [getRecentPosts, List.take_reverse]
  refine ⟨hdrop, ?_⟩
  intro registry sid store user h
  have hmem : ∀ p ∈ filteredPostsFor user store,
      normalizeChannel (some p.channel) = normalizeChannel (some user.channel) := by
    intro p hp
    simp only [filteredPostsFor] at hp
    have hm := (List.mem_filter.1 hp).2
    simpa [matchesRule] using hm
  refine ⟨by simp [sendFilteredPosts, h, filteredPostsFor], ?_, hmem, ?_⟩
  · have h1 : (filteredPostsFor user store).Sublist (getRecentPosts store 100) := by
      simp only [filteredPostsFor]
      exact List.filter_sublist _
    have h2 : (getRecentPosts store 100).Sublist store := by
      rw [hdrop]
      exact List.drop_sublist _ _
    exact h1.trans h2
  · intro hch p hp
    exact (hmem p hp).trans hch

/-- Witness for C5: a registered participant in channel `""` over the
empty store. -/
theorem snapshot_filtered_ordered_witness :
    List.find? (fun (u : Participant) => u.id == "s1")
        [{ id := "s1", sessionId := "a1", displayName := "n1", channel := "" }] =
      some { id := "s1", sessionId := "a1", displayName := "n1", channel := "" } ∧
    (sendFilteredPosts
        [{ id := "s1", sessionId := "a1", displayName := "n1", channel := "" }] "s1" [] =
        [{ target := Target.one "s1",
           event := SEvent.posts
             ((getRecentPosts ([] : List Post) 100).filter
               (fun p => matchesRule
                 { id := "s1", sessionId := "a1", displayName := "n1", channel := "" } p)) }] ∧
      (filteredPostsFor
          { id := "s1", sessionId := "a1", displayName := "n1", channel := "" }
          ([] : List Post)).Sublist [] ∧
      (∀ p ∈ filteredPostsFor
          { id := "s1", sessionId := "a1", displayName := "n1", channel := "" }
          ([] : List Post),
          normalizeChannel (some p.channel) = normalizeChannel (some ("" : String))) ∧
      (normalizeChannel (some ("" : String)) = "" →
          ∀ p ∈ filteredPostsFor
              { id := "s1", sessionId := "a1", displayName := "n1", channel := "" }
              ([] : List Post),
            normalizeChannel (some p.channel) = "")) :=
  ⟨by decide,
   snapshot_filtered_ordered.2
     [{ id := "s1", sessionId := "a1", displayName := "n1", channel := "" }] "s1" []
     { id := "s1", sessionId := "a1", displayName := "n1", channel := "" } (by decide)⟩

/-- Membership after `mapSet`: an element of the updated registry is an
old element or the written participant. -/
theorem mem_mapSet {registry : List Participant} {p u : Participant}
    (h : u ∈ mapSet registry p) : u ∈ registry ∨ u = p := by
  simp only [mapSet] at h
  split at h
  · rcases List.mem_map.1 h with ⟨q, hq, heq⟩
    by_cases hqe : (q.id == p.id) = true
    · right
      rw [if_pos hqe] at heq
      exact heq.symm
    · left
      rw [if_neg hqe] at heq
      exact heq ▸ hq
  · rcases List.mem_append.1 h with h | h
    · exact Or.inl h
    · exact Or.inr (List.mem_singleton.1 h)

/-- The written participant is always in the updated registry. -/
theorem mapSet_self_mem (registry : List Participant) (p : Participant) :
    p ∈ mapSet registry p := by
  simp only [mapSet]
  split
  · next hany =>
    rcases List.any_eq_true.1 hany with ⟨q, hq, hid⟩
    exact List.mem_map.2 ⟨q, hq, by rw [if_pos hid]⟩
  · exact List.mem_append.2 (Or.inr (List.mem_singleton.2 rfl))

/-- C7 counterexample: a `sendMessage` on a connection id that is not in
the registry is not silent — it emits an `error "Not connected"` event
to the caller. -/
theorem stale_sendMessage_counterexample :
    sendMessageHandler [] "x" { message := "hi", image := none }
        { posts := [], votes := [] } "id1" "t1" =
      ({ posts := [], votes := [] },
       [{ target := Target.one "x", event := SEvent.errorMsg "Not connected" }]) := by
  decide

/-- C7 (amended): operating on an unregistered connection id never
touches the registry or the store; a settings update is a silent no-op
with no event, while a message send emits an `error "Not connected"`
event to the caller (and nothing else). -/
theorem stale_connection_behaviour :
    ∀ (registry : List Participant) (sid : String) (settings : Settings) (store : List Post)
      (md : MessageData) (db : DB) (freshId timestamp : String),
      registry.find? (fun u => u.id == sid) = none →
        updateSettingsHandler registry sid settings store = (registry, []) ∧
        sendMessageHandler registry sid md db freshId timestamp =
          (db, [{ target := Target.one sid, event := SEvent.errorMsg "Not connected" }]) := by
  intro registry sid settings store md db freshId timestamp h
  constructor
  · simp [updateSettingsHandler, h]
  · simp [sendMessageHandler, h]

/-- Witness for C7: the empty registry. -/
theorem stale_connection_behaviour_witness :
    List.find? (fun (u : Participant) => u.id == "x") [] = none ∧
    (updateSettingsHandler [] "x" { displayName := none, channel := none } [] = ([], []) ∧
     sendMessageHandler [] "x" { message := "hi", image := none }
         { posts := [], votes := [] } "id1" "t1" =
       ({ posts := [], votes := [] },
        [{ target := Target.one "x", event := SEvent.errorMsg "Not connected" }])) :=
  ⟨by decide,
   stale_connection_behaviour [] "x" { displayName := none, channel := none } []
     { message := "hi", image := none } { posts := [], votes := [] } "id1" "t1" (by decide)⟩

/-- C9 counterexample: an update supplying the whitespace-only display
name `" "` is accepted (it is truthy in JavaScript), leaving a
registered participant whose trimmed display name is empty. -/
theorem displayName_whitespace_counterexample :
    (updateSettingsHandler (registerHandler [] "s1" "sess1") "s1"
        { displayName := some " ", channel := none } []).1 =
      [{ id := "s1", sessionId := "sess1", displayName := " ", channel := "" }] ∧
    jsTrim " " = "" := by
  decide

/-- C9 (amended): registration creates the participant with
`displayName = "Anonymous"`, `channel = ""` and the supplied fresh
session id; an update supplying the empty display name (the only falsy
string) keeps the previous record unchanged; settings updates preserve
non-emptiness of the raw display name — but a whitespace-only name is
accepted, so non-emptiness after trimming is not maintained. -/
theorem register_defaults_and_name_invariant :
    (∀ (registry : List Participant) (sid sess : String),
        ({ id := sid, sessionId := sess, displayName := "Anonymous", channel := "" } :
            Participant) ∈ registerHandler registry sid sess) ∧
    (∀ (registry : List Participant) (sid : String) (user : Participant) (store : List Post),
        registry.find? (fun u => u.id == sid) = some user →
          updateSettingsHandler registry sid { displayName := some "", channel := none } store =
            (mapSet registry user, [])) ∧
    (∀ (registry : List Participant) (sid : String) (settings : Settings) (store : List Post),
        (∀ u ∈ registry, u.displayName ≠ "") →
          ∀ u ∈ (updateSettingsHandler registry sid settings store).1, u.displayName ≠ "") := by
  refine ⟨?_, ?_, ?_⟩
  · intro registry sid sess
    exact mapSet_self_mem registry _
  · intro registry sid user store h
    simp [updateSettingsHandler, h]
  · intro registry sid settings store hinv u hu
    rcases hfind : registry.find? (fun u => u.id == sid) with _ | user
    · rw [updateSettingsHandler, hfind] at hu
      exact hinv u hu
    · rw [updateSettingsHandler, hfind] at hu
      simp only at hu
      have huser : user ∈ registry := List.mem_of_find?_eq_some hfind
      have hmem : u ∈ mapSet registry
          { user with
            displayName := match settings.displayName with
              | some d => if d = "" then user.displayName else d
              | none => user.displayName,
            channel := match settings.channel with
              | some c => normalizeChannel (some c)
              | none => user.channel } := by
        split at hu
        · exact hu
        · exact hu
      rcases mem_mapSet hmem with h | h
      · exact hinv u h
      · rw [h]
        rcases hd : settings.displayName with _ | d
        · simpa [hd] using hinv user huser
        · by_cases hde : d = ""
          · simpa [hd, hde] using hinv user huser
          · simp [hd, hde]

/-- Witness for C9: a concrete empty-name update and invariant
preservation on a one-element registry. -/
theorem register_defaults_and_name_invariant_witness :
    (List.find? (fun (u : Participant) => u.id == "s1")
        [{ id := "s1", sessionId := "a1", displayName := "Bob", channel := "" }] =
      some { id := "s1", sessionId := "a1", displayName := "Bob", channel := "" }) ∧
    (updateSettingsHandler
        [{ id := "s1", sessionId := "a1", displayName := "Bob", channel := "" }] "s1"
        { displayName := some "", channel := none } [] =
      (mapSet [{ id := "s1", sessionId := "a1", displayName := "Bob", channel := "" }]
        { id := "s1", sessionId := "a1", displayName := "Bob", channel := "" }, [])) ∧
    (∀ u ∈ (updateSettingsHandler
        [{ id := "s1", sessionId := "a1", displayName := "Bob", channel := "" }] "s1"
        { displayName := some "C", channel := none } []).1, u.displayName ≠ "") :=
  ⟨by decide,
   register_defaults_and_name_invariant.2.1
     [{ id := "s1", sessionId := "a1", displayName := "Bob", channel := "" }] "s1"
     { id := "s1", sessionId := "a1", displayName := "Bob", channel := "" } [] (by decide),
   register_defaults_and_name_invariant.2.2
     [{ id := "s1", sessionId := "a1", displayName := "Bob", channel := "" }] "s1"
     { displayName := some "C", channel := none } [] (by decide)⟩

/-- C6 counterexample: the admin deletion broadcast carries no reason
field at all — its payload is `{ messageId }` only, not
`reason = "admin"`. -/
theorem admin_delete_no_reason_counterexample :
    (adminDeleteHandler
        { posts := [{ id := "P", sessionId := "a", displayName := "n", message := "m",
                      image := none, latitude := 0, longitude := 0, channel := "",
                      timestamp := "t" }], votes := [] } "P").2.1 =
      [{ target := Target.all, event := SEvent.messageDeleted "P" none none },
       { target := Target.all, event := SEvent.adminNotify }] ∧
    ({ target := Target.all, event := SEvent.messageDeleted "P" (some "admin") none } :
        Broadcast) ∉
      (adminDeleteHandler
        { posts := [{ id := "P", sessionId := "a", displayName := "n", message := "m",
                      image := none, latitude := 0, longitude := 0, channel := "",
                      timestamp := "t" }], votes := [] } "P").2.1 := by
  decide

/-- C6 (amended): every `messageDeleted` broadcast goes to all
connections unconditionally; the auto-moderation one carries
`reason = "auto-moderation"` and the triggering distinct-voter downvote
count, while the admin one carries only the message id and no reason
field. -/
theorem messageDeleted_broadcast_shape :
    (∀ (db : DB) (mid : String) (b : Broadcast),
        b ∈ (adminDeleteHandler db mid).2.1 → isMessageDeleted b.event = true →
          b.target = Target.all ∧ b.event = SEvent.messageDeleted mid none none) ∧
    (∀ (db : DB) (p s : String) (t : VoteType) (b : Broadcast),
        b ∈ (voteHandler db p s t).2 → isMessageDeleted b.event = true →
          b.target = Target.all ∧
          b.event = SEvent.messageDeleted p (some "auto-moderation")
            (some (downvoterCount (addVote db.votes p s t).1 p))) := by
  constructor
  · intro db mid b hb hmd
    simp only [adminDeleteHandler] at hb
    split at hb
    · simp only [List.mem_cons, List.mem_singleton, List.not_mem_nil] at hb
      rcases hb with rfl | rfl | hb
      · exact ⟨rfl, rfl⟩
      · simp [isMessageDeleted] at hmd
      · exact absurd hb (not_false)
    · simp at hb
  · intro db p s t b hb hmd
    by_cases ht : t = VoteType.down
    · subst ht
      by_cases hchk :
          (checkPostForAutoDelete (addVote db.votes p s VoteType.down).1 p).1 = true
      · by_cases hdel :
            (deletePostById
              { posts := db.posts, votes := (addVote db.votes p s VoteType.down).1 }
              p).2.1 = true
        · simp [voteHandler, hchk, hdel] at hb
          rcases hb with rfl | rfl
          · exact ⟨rfl, by simp [checkPostForAutoDelete]⟩
          · simp [isMessageDeleted] at hmd
        · simp [voteHandler, hchk, hdel] at hb
          rcases hb with rfl | rfl <;> simp [isMessageDeleted] at hmd
      · simp [voteHandler, hchk] at hb
        rcases hb with rfl | rfl <;> simp [isMessageDeleted] at hmd
    · simp [voteHandler, ht] at hb
      rcases hb with rfl | rfl <;> simp [isMessageDeleted] at hmd

/-- Witness for C6: the concrete admin deletion broadcast. -/
theorem messageDeleted_broadcast_shape_witness :
    ({ target := Target.all, event := SEvent.messageDeleted "P" none none } : Broadcast).target =
      Target.all ∧
    ({ target := Target.all, event := SEvent.messageDeleted "P" none none } : Broadcast).event =
      SEvent.messageDeleted "P" none none :=
  messageDeleted_broadcast_shape.1
    { posts := [{ id := "P", sessionId := "a", displayName := "n", message := "m",
                  image := none, latitude := 0, longitude := 0, channel := "",
                  timestamp := "t" }], votes := [] }
    "P" { target := Target.all, event := SEvent.messageDeleted "P" none none }
    (by decide) (by decide)

/-- C1: when a downvote brings the recomputed distinct-voter downvote
count to the threshold 3 and the post is still present, the post is
deleted and exactly one `messageDeleted` broadcast with reason
`auto-moderation` and that count is emitted; on an already-deleted post
the delete is an idempotent no-op reporting zero affected rows and no
deletion broadcast is emitted. -/
theorem auto_delete_on_threshold (db : DB) (p s : String)
    (h3 : 3 ≤ downvoterCount (addVote db.votes p s VoteType.down).1 p) :
    ((∃ post ∈ db.posts, post.id = p) →
        ((voteHandler db p s VoteType.down).2.filter
            (fun b => isMessageDeleted b.event)).length = 1 ∧
        ({ target := Target.all,
           event := SEvent.messageDeleted p (some "auto-moderation")
             (some (downvoterCount (addVote db.votes p s VoteType.down).1 p)) } :
            Broadcast) ∈ (voteHandler db p s VoteType.down).2 ∧
        (∀ post ∈ (voteHandler db p s VoteType.down).1.posts, post.id ≠ p)) ∧
    ((∀ post ∈ db.posts, post.id ≠ p) →
        ((voteHandler db p s VoteType.down).2.filter
            (fun b => isMessageDeleted b.event)).length = 0 ∧
        (deletePostById { posts := db.posts, votes := (addVote db.votes p s VoteType.down).1 }
            p).2.2 = 0) := by
  have hchk : (checkPostForAutoDelete (addVote db.votes p s VoteType.down).1 p).1 = true := by
    simp [checkPostForAutoDelete]
    exact h3
  constructor
  · rintro ⟨post, hmem, hpid⟩
    have hpos : 0 < (db.posts.filter (fun q => q.id == p)).length := by
      have : post ∈ db.posts.filter (fun q => q.id == p) :=
        List.mem_filter.2 ⟨hmem, by simp [hpid]⟩
      exact List.length_pos.2 (fun he => by simp [he] at this)
    have hdel : (deletePostById
        { posts := db.posts, votes := (addVote db.votes p s VoteType.down).1 } p).2.1 = true := by
      simp [deletePostById]
      exact hpos
    refine ⟨?_, ?_, ?_⟩
    · simp [voteHandler, hchk, hdel, isMessageDeleted]
    · simp [voteHandler, hchk, hdel, checkPostForAutoDelete, h3]
    · intro q hq
      simp [voteHandler, hchk, hdel, deletePostById, hpos] at hq
      exact hq.2
  · intro hnone
    have hempty : db.posts.filter (fun q => q.id == p) = [] := by
      rw [List.filter_eq_nil_iff]
      intro q hq
      simpa using hnone q hq
    have hdel : (deletePostById
        { posts := db.posts, votes := (addVote db.votes p s VoteType.down).1 } p).2.1 = false := by
      simp [deletePostById, hempty]
    constructor
    · simp [voteHandler, hchk, hdel, isMessageDeleted]
    · simp [deletePostById, hempty]

/-- Witness for C1: two existing downvotes plus a third distinct voter
on a present post. -/
theorem auto_delete_on_threshold_witness :
    3 ≤ downvoterCount
        (addVote
          [{ postId := "P", sessionId := "a", voteType := VoteType.down },
           { postId := "P", sessionId := "b", voteType := VoteType.down }]
          "P" "c" VoteType.down).1 "P" ∧
    (((∃ post ∈ [{ id := "P", sessionId := "a", displayName := "n", message := "m",
                   image := none, latitude := 0, longitude := 0, channel := "",
                   timestamp := "t" }], Post.id post = "P") →
        ((voteHandler
            { posts := [{ id := "P", sessionId := "a", displayName := "n", message := "m",
                          image := none, latitude := 0, longitude := 0, channel := "",
                          timestamp := "t" }],
              votes := [{ postId := "P", sessionId := "a", voteType := VoteType.down },
                        { postId := "P", sessionId := "b", voteType := VoteType.down }] }
            "P" "c" VoteType.down).2.filter
            (fun b => isMessageDeleted b.event)).length = 1 ∧
        ({ target := Target.all,
           event := SEvent.messageDeleted "P" (some "auto-moderation")
             (some (downvoterCount
               (addVote
                 [{ postId := "P", sessionId := "a", voteType := VoteType.down },
                  { postId := "P", sessionId := "b", voteType := VoteType.down }]
                 "P" "c" VoteType.down).1 "P")) } : Broadcast) ∈
          (voteHandler
            { posts := [{ id := "P", sessionId := "a", displayName := "n", message := "m",
                          image := none, latitude := 0, longitude := 0, channel := "",
                          timestamp := "t" }],
              votes := [{ postId := "P", sessionId := "a", voteType := VoteType.down },
                        { postId := "P", sessionId := "b", voteType := VoteType.down }] }
            "P" "c" VoteType.down).2 ∧
        (∀ post ∈ (voteHandler
            { posts := [{ id := "P", sessionId := "a", displayName := "n", message := "m",
                          image := none, latitude := 0, longitude := 0, channel := "",
                          timestamp := "t" }],
              votes := [{ postId := "P", sessionId := "a", voteType := VoteType.down },
                        { postId := "P", sessionId := "b", voteType := VoteType.down }] }
            "P" "c" VoteType.down).1.posts, Post.id post ≠ "P")) ∧
      ((∀ post ∈ [{ id := "P", sessionId := "a", displayName := "n", message := "m",
                    image := none, latitude := 0, longitude := 0, channel := "",
                    timestamp := "t" }], Post.id post ≠ "P") →
        ((voteHandler
            { posts := [{ id := "P", sessionId := "a", displayName := "n", message := "m",
                          image := none, latitude := 0, longitude := 0, channel := "",
                          timestamp := "t" }],
              votes := [{ postId := "P", sessionId := "a", voteType := VoteType.down },
                        { postId := "P", sessionId := "b", voteType := VoteType.down }] }
            "P" "c" VoteType.down).2.filter
            (fun b => isMessageDeleted b.event)).length = 0 ∧
        (deletePostById
            { posts := [{ id := "P", sessionId := "a", displayName := "n", message := "m",
                          image := none, latitude := 0, longitude := 0, channel := "",
                          timestamp := "t" }],
              votes := (addVote
                [{ postId := "P", sessionId := "a", voteType := VoteType.down },
                 { postId := "P", sessionId := "b", voteType := VoteType.down }]
                "P" "c" VoteType.down).1 } "P").2.2 = 0)) :=
  ⟨by decide,
   auto_delete_on_threshold
     { posts := [{ id := "P", sessionId := "a", displayName := "n", message := "m",
                   image := none, latitude := 0, longitude := 0, channel := "",
                   timestamp := "t" }],
       votes := [{ postId := "P", sessionId := "a", voteType := VoteType.down },
                 { postId := "P", sessionId := "b", voteType := VoteType.down }] }
     "P" "c" (by decide)⟩

/-- C10: a downvote that triggers the auto-deletion emits no
`voteUpdate` (the handler returns before that emit), and any vote that
does not trigger a deletion emits exactly one `voteUpdate`, broadcast
to all connections. -/
theorem voteUpdate_deletion_exclusivity :
    (∀ (db : DB) (p s : String) (t : VoteType),
        (t = VoteType.down ∧
          (checkPostForAutoDelete (addVote db.votes p s t).1 p).1 = true ∧
          (deletePostById { posts := db.posts, votes := (addVote db.votes p s t).1 } p).2.1 =
            true) →
          ((voteHandler db p s t).2.filter (fun b => isVoteUpdate b.event)).length = 0 ∧
          ((voteHandler db p s t).2.filter (fun b => isMessageDeleted b.event)).length = 1) ∧
    (∀ (db : DB) (p s : String) (t : VoteType),
        ¬(t = VoteType.down ∧
          (checkPostForAutoDelete (addVote db.votes p s t).1 p).1 = true ∧
          (deletePostById { posts := db.posts, votes := (addVote db.votes p s t).1 } p).2.1 =
            true) →
          ((voteHandler db p s t).2.filter (fun b => isVoteUpdate b.event)).length = 1 ∧
          ((voteHandler db p s t).2.filter (fun b => isMessageDeleted b.event)).length = 0 ∧
          ∀ b ∈ (voteHandler db p s t).2, isVoteUpdate b.event = true →
            b.target = Target.all) := by
  constructor
  · rintro db p s t ⟨rfl, hchk, hdel⟩
    simp [voteHandler, hchk, hdel, isVoteUpdate, isMessageDeleted]
  · intro db p s t hnot
    by_cases ht : t = VoteType.down
    · subst ht
      by_cases hchk : (checkPostForAutoDelete (addVote db.votes p s VoteType.down).1 p).1 = true
      · have hdel : ¬(deletePostById
            { posts := db.posts, votes := (addVote db.votes p s VoteType.down).1 } p).2.1 =
              true := fun hdel => hnot ⟨rfl, hchk, hdel⟩
        refine ⟨?_, ?_, ?_⟩
        · simp [voteHandler, hchk, hdel, isVoteUpdate]
        · simp [voteHandler, hchk, hdel, isMessageDeleted]
        · intro b hb _
          simp [voteHandler, hchk, hdel] at hb
          rcases hb with rfl | rfl <;> rfl
      · refine ⟨?_, ?_, ?_⟩
        · simp [voteHandler, hchk, isVoteUpdate]
        · simp [voteHandler, hchk, isMessageDeleted]
        · intro b hb _
          simp [voteHandler, hchk] at hb
          rcases hb with rfl | rfl <;> rfl
    · refine ⟨?_, ?_, ?_⟩
      · simp [voteHandler, ht, isVoteUpdate]
      · simp [voteHandler, ht, isMessageDeleted]
      · intro b hb _
        simp [voteHandler, ht] at hb
        rcases hb with rfl | rfl <;> rfl

/-- Witness for C10: an upvote on an empty store (no deletion) and the
concrete threshold-reaching downvote. -/
theorem voteUpdate_deletion_exclusivity_witness :
    (((voteHandler { posts := [], votes := [] } "P" "S" VoteType.up).2.filter
        (fun b => isVoteUpdate b.event)).length = 1 ∧
      ((voteHandler { posts := [], votes := [] } "P" "S" VoteType.up).2.filter
        (fun b => isMessageDeleted b.event)).length = 0 ∧
      ∀ b ∈ (voteHandler { posts := [], votes := [] } "P" "S" VoteType.up).2,
        isVoteUpdate b.event = true → b.target = Target.all) :=
  voteUpdate_deletion_exclusivity.2 { posts := [], votes := [] } "P" "S" VoteType.up
    (by decide)

/-- The value `atan2 (sqrt a) (sqrt (1 - a))` coincides with `arcsin (sqrt a)`
for every real `a` (the two Haversine closed forms agree). -/
theorem atan2_sqrt_eq_arcsin (a : ℝ) :
    atan2 (Real.sqrt a) (Real.sqrt (1 - a)) = Real.arcsin (Real.sqrt a) := by
  rcases le_or_lt a 0 with h | h
  · have hs : Real.sqrt a = 0 := Real.sqrt_eq_zero'.2 h
    have hx : 0 < Real.sqrt (1 - a) := Real.sqrt_pos.2 (by linarith)
    rw [hs, atan2, if_pos hx]
    simp
  · rcases lt_or_le a 1 with h1 | h1
    · have ha : 0 ≤ a := le_of_lt h
      have hx : 0 < Real.sqrt (1 - a) := Real.sqrt_pos.2 (by linarith)
      rw [atan2, if_pos hx]
      have hlt : Real.sqrt a < 1 := by
        rw [Real.sqrt_lt' one_pos]
        simpa using h1
      have hmem : Real.sqrt a ∈ Set.Ioo (-(1 : ℝ)) 1 :=
        ⟨lt_of_lt_of_le (by norm_num) (Real.sqrt_nonneg a), hlt⟩
      rw [Real.arcsin_eq_arctan hmem, Real.sq_sqrt ha]
    · have hz : Real.sqrt (1 - a) = 0 := Real.sqrt_eq_zero'.2 (by linarith)
      have hy : (1 : ℝ) ≤ Real.sqrt a := Real.one_le_sqrt.2 h1
      rw [hz, atan2, if_neg (lt_irrefl 0), if_neg (lt_irrefl 0),
        if_pos (lt_of_lt_of_le one_pos hy), Real.arcsin_of_one_le hy]

/-- On `[0, pi/2)` the code's `2 * atan2(sqrt(sin^2 x), sqrt(1 - sin^2 x))`
collapses to the angle itself. -/
theorem atan2_sin_cos (x : ℝ) (h0 : 0 ≤ x) (h2 : x < Real.pi / 2) :
    atan2 (Real.sqrt (Real.sin x * Real.sin x)) (Real.sqrt (1 - Real.sin x * Real.sin x)) =
      x := by
  have hpi := Real.pi_pos
  have hsin : 0 ≤ Real.sin x := Real.sin_nonneg_of_nonneg_of_le_pi h0 (by linarith)
  have hcos : 0 < Real.cos x := Real.cos_pos_of_mem_Ioo ⟨by linarith, h2⟩
  have h1 : 1 - Real.sin x * Real.sin x = Real.cos x * Real.cos x := by
    linear_combination -(Real.sin_sq_add_cos_sq x)
  rw [Real.sqrt_mul_self hsin, h1, Real.sqrt_mul_self (le_of_lt hcos), atan2, if_pos hcos,
    ← Real.tan_eq_sin_div_cos]
  exact Real.arctan_tan (by linarith) h2

/-- The code's distance from `(0,0)` to `(1,0)` (one degree of latitude). -/
theorem calculateDistance_one_deg_lat :
    calculateDistance 0 0 1 0 = 3959 * (2 * (Real.pi / 360)) := by
  have ha : haversineA 0 0 1 0 = Real.sin (Real.pi / 360) * Real.sin (Real.pi / 360) := by
    simp only [haversineA, toRadians]
    have e1 : ((1 : ℝ) - 0) * (Real.pi / 180) / 2 = Real.pi / 360 := by ring
    have e2 : ((0 : ℝ) - 0) * (Real.pi / 180) / 2 = 0 := by ring
    rw [e1, e2]
    simp
  have hpi := Real.pi_pos
  simp only [calculateDistance]
  rw [ha, atan2_sin_cos (Real.pi / 360) (by linarith) (by linarith)]

/-- The code's distance from `(0,0)` to `(0,0.5)` (half a degree of
longitude on the equator). -/
theorem calculateDistance_half_deg_lon :
    calculateDistance 0 0 0 (1 / 2) = 3959 * (2 * (Real.pi / 720)) := by
  have ha : haversineA 0 0 0 (1 / 2) =
      Real.sin (Real.pi / 720) * Real.sin (Real.pi / 720) := by
    simp only [haversineA, toRadians]
    have e1 : ((1 : ℝ) / 2 - 0) * (Real.pi / 180) / 2 = Real.pi / 720 := by ring
    have e2 : ((0 : ℝ) - 0) * (Real.pi / 180) / 2 = 0 := by ring
    rw [e1, e2]
    simp
  have hpi := Real.pi_pos
  simp only [calculateDistance]
  rw [ha, atan2_sin_cos (Real.pi / 720) (by linarith) (by linarith)]

/-- C8: the code's `calculateDistance` agrees exactly (in the real-number
idealization) with the reference formula
`2 * R * asin(sqrt(sin^2(dlat/2) + cos(lat1) cos(lat2) sin^2(dlon/2)))`;
a participant at `(0,0)` with radius 10 does not match a post at
`(1,0)` (about 69 miles), and under the spec's matching rule one at
`(0,0)` with radius 100 matches a post at `(0,0.5)` (about 34.5 miles) —
but the geofenced broadcast code skips every participant whose latitude
or longitude is `0` (JavaScript falsiness in
`if (!user.latitude || !user.longitude) continue;`), so it delivers
nothing to that participant. -/
theorem haversine_agrees_and_geofence_zero_bug :
    (∀ lat1 lon1 lat2 lon2 : ℝ,
        calculateDistance lat1 lon1 lat2 lon2 = referenceDistance lat1 lon1 lat2 lon2) ∧
    ¬ calculateDistance 0 0 1 0 ≤ 10 ∧
    calculateDistance 0 0 0 (1 / 2) ≤ 100 ∧
    ¬ matchesGeoSpec
        { id := "u", latitude := some 0, longitude := some 0, radius := 10, channel := "" }
        { id := "q", latitude := 1, longitude := 0, channel := "" } ∧
    matchesGeoSpec
        { id := "u", latitude := some 0, longitude := some 0, radius := 100, channel := "" }
        { id := "q", latitude := 0, longitude := 1 / 2, channel := "" } ∧
    ¬ geoDelivers
        { id := "u", latitude := some 0, longitude := some 0, radius := 100, channel := "" }
        { id := "q", latitude := 0, longitude := 1 / 2, channel := "" } := by
  have hgt : ¬ calculateDistance 0 0 1 0 ≤ 10 := by
    rw [calculateDistance_one_deg_lat]
    push_neg
    nlinarith [Real.pi_gt_three]
  have hle : calculateDistance 0 0 0 (1 / 2) ≤ 100 := by
    rw [calculateDistance_half_deg_lon]
    nlinarith [Real.pi_lt_four]
  refine ⟨?_, hgt, hle, ?_, ?_, ?_⟩
  · intro lat1 lon1 lat2 lon2
    simp only [calculateDistance, referenceDistance]
    rw [atan2_sqrt_eq_arcsin]
    ring
  · rintro ⟨-, hd⟩
    exact hgt hd
  · exact ⟨rfl, hle⟩
  · rintro ⟨hlat, -⟩
    exact hlat rfl

end Groupdeedo
